import Mathlib

/-!
# Verification of the GM17 parameter generator

A shallow embedding of the parameter-generation pipeline of the GM17
zkSNARK crate (`src/generator.rs`), together with theorems checking the
specification's statements about it.

The generator is generic over a pairing engine; here the scalar field is an
arbitrary commutative ring `F`, the two curve groups are arbitrary
`F`-modules `G1` and `G2`, their affine representations are arbitrary types
`A1` and `A2` reached through conversion functions, and the randomness
source is an arbitrary state type `ρ` threaded through the sampling
functions.  Components of the repository that are not part of
`src/generator.rs` (the `r1cs_to_sap` module, the key records of
`data_structures`, the fixed-base MSM engine, and the evaluation-domain
library) are modelled from the specification's interface contracts.
-/

/-- Modelled from the spec: the error taxonomy of §7 for the synthesis
error type surfaced by the generator (the `ark_relations` error enum is
outside `src/`).  The generator itself distinguishes only the
degree-too-large error; every other failure is propagated opaquely and is
abstracted here by a numeric code. -/
inductive SynthError where
  | polynomialDegreeTooLarge
  | other (code : Nat)
deriving DecidableEq

/-- Modelled from the spec: §3/§4.2's SAP instance, the output record of
`R1CStoSAP::instance_map_with_evaluation` (module `r1cs_to_sap`, absent
from `src/`): coefficient vectors `a` and `c`, the vanishing-polynomial
evaluation `zt = Z(t)`, the SAP variable count and the auxiliary degree
bound `m_raw`. -/
structure SAPOut (F : Type) where
  a : List F
  c : List F
  zt : F
  sap_num_variables : Nat
  m_raw : Nat
deriving DecidableEq

/-- Modelled from the spec: §3's constraint-system snapshot, the part of
the finalized constraint system the generator observes — the two counts
read at `generator.rs` lines 67-68, and the R1CS-to-SAP reduction applied
to the finalized system (a function of the sampled evaluation point `t`,
since the system itself is fixed after `cs.finalize()`). -/
structure Snapshot (F : Type) where
  num_instance_variables : Nat
  num_constraints : Nat
  reduce : F → Except SynthError (SAPOut F)

/-- Modelled from the spec: §1's circuit, observed only through
`generate_constraints` followed by `finalize` (`generator.rs` lines
54-64): either a synthesis error or a finalized snapshot. -/
def Circuit (F : Type) : Type := Except SynthError (Snapshot F)

/-- Modelled from the spec: the external algebra/library capabilities the
generator consumes (§4.1, §4.4): whether `GeneralEvaluationDomain::new`
succeeds for a requested size, sampling an element outside the domain,
uniform sampling of scalars and of generators in either group, and the
projective-to-affine conversions used by `into_affine` and
`normalize_batch`. -/
structure AlgebraOps (F G1 G2 A1 A2 ρ : Type) where
  domainSupported : Nat → Bool
  sampleOutside : Nat → ρ → F × ρ
  randF : ρ → F × ρ
  randG1 : ρ → G1 × ρ
  randG2 : ρ → G2 × ρ
  affG1 : G1 → A1
  affG2 : G2 → A2

/-- Modelled from the spec: §3's verifying-key record (module
`data_structures`, absent from `src/`), with the field names used by
`generator.rs` lines 200-207. -/
structure VerifyingKey (A1 A2 : Type) where
  h_g2 : A2
  g_alpha_g1 : A1
  h_beta_g2 : A2
  g_gamma_g1 : A1
  h_gamma_g2 : A2
  query : List A1
deriving DecidableEq

/-- Modelled from the spec: §3's proving-key record (module
`data_structures`, absent from `src/`), with the field names used by
`generator.rs` lines 219-230. -/
structure ProvingKey (A1 A2 : Type) where
  vk : VerifyingKey A1 A2
  a_query : List A1
  b_query : List A2
  c_query_1 : List A1
  c_query_2 : List A1
  g_gamma_z : A1
  h_gamma_z : A2
  g_ab_gamma_z : A1
  g_gamma2_z2 : A1
  g_gamma2_z_t : List A1
deriving DecidableEq

/-- Result of a run of the generator: a proving key, a returned Rust
error, or a Rust panic (out-of-bounds indexing or splitting). -/
inductive Outcome (α : Type) where
  | ok (value : α)
  | err (e : SynthError)
  | panic
deriving DecidableEq

/-- Extract the proving key from a successful outcome, with a fallback. -/
def Outcome.getOk {α : Type} (o : Outcome α) (d : α) : α :=
  match o with
  | .ok v => v
  | _ => d

namespace GM17

variable {F : Type} [CommRing F] {G1 : Type} [AddCommGroup G1] [Module F G1]
variable {G2 : Type} [AddCommGroup G2] [Module F G2] {A1 A2 ρ : Type}

/-- Modelled from the spec: `FixedBase::msm` of the windowed fixed-base
MSM engine (`ark_ec::scalar_mul::fixed_base`, outside `src/`), by its
interface contract of §4.3 and §8: the batch output equals the independent
scalar multiplications of the fixed base, one output per input scalar, in
order; the window-table machinery only affects how that result is
computed. -/
def fixedBaseMSM {G : Type} [AddCommGroup G] [Module F G]
    (base : G) (scalars : List F) : List G :=
  scalars.map (fun s => s • base)

/-- The assembly stage of `generate_parameters` (`generator.rs` lines
113-230): every scalar derivation and group operation performed after the
R1CS-to-SAP reduction has produced `out` and the point `t` has been
sampled, on the in-bounds path (the out-of-bounds paths are the `panic`
branches of `generateFromSAP`). -/
def assembleKeys (num_inputs : Nat) (alpha beta gamma : F) (g : G1) (h : G2)
    (ops : AlgebraOps F G1 G2 A1 A2 ρ) (t : F) (out : SAPOut F) :
    ProvingKey A1 A2 :=
  let a := out.a
  let c := out.c
  let zt := out.zt
  -- lines 115-120: A-query, scalars a[i] * gamma over the whole vector a
  let a_query := fixedBaseMSM g (a.map (fun x => x * gamma))
  -- lines 125-133: derived scalars and single elements
  let gamma_z := zt * gamma
  let alpha_beta := alpha + beta
  let ab_gamma_z := alpha_beta * gamma * zt
  let g_gamma := gamma • g
  let g_gamma_z := gamma_z • g
  let h_gamma := gamma • h
  let h_gamma_z := zt • h_gamma
  let g_ab_gamma_z := ab_gamma_z • g
  let g_gamma2_z2 := (gamma_z * gamma_z) • g
  -- lines 136-144: the auxiliary vector, scalars gamma2_z_t * t^i
  let gamma2_z_t := gamma_z * gamma
  let g_gamma2_z_t := fixedBaseMSM g
    ((List.range (out.m_raw + 1)).map (fun i => gamma2_z_t * t ^ i))
  -- lines 149-156: the C1 batch, scalars c[i] * gamma + a[i] * alpha_beta
  let result := fixedBaseMSM g
    ((List.range (out.sap_num_variables + 1)).map
      (fun i => c.getD i 0 * gamma + a.getD i 0 * alpha_beta))
  -- line 157: split_at(num_inputs)
  let verifier_query := result.take num_inputs
  let c_query_1 := result.drop num_inputs
  -- lines 162-170: the C2 batch, scalars a[i] * double_gamma2_z
  let double_gamma2_z := zt * (gamma * gamma) + zt * (gamma * gamma)
  let c_query_2 := fixedBaseMSM g
    ((List.range (out.sap_num_variables + 1)).map
      (fun i => a.getD i 0 * double_gamma2_z))
  -- lines 183-188: B-query, the unscaled vector a against base h_gamma
  let b_query := fixedBaseMSM h_gamma a
  -- lines 196-197
  let g_alpha := alpha • g
  let h_beta := beta • h
  -- lines 200-230: record assembly with affine normalization
  { vk := { h_g2 := ops.affG2 h
            g_alpha_g1 := ops.affG1 g_alpha
            h_beta_g2 := ops.affG2 h_beta
            g_gamma_g1 := ops.affG1 g_gamma
            h_gamma_g2 := ops.affG2 h_gamma
            query := verifier_query.map ops.affG1 }
    a_query := a_query.map ops.affG1
    b_query := b_query.map ops.affG2
    c_query_1 := c_query_1.map ops.affG1
    c_query_2 := c_query_2.map ops.affG1
    g_gamma_z := ops.affG1 g_gamma_z
    h_gamma_z := ops.affG2 h_gamma_z
    g_ab_gamma_z := ops.affG1 g_ab_gamma_z
    g_gamma2_z2 := ops.affG1 g_gamma2_z2
    g_gamma2_z_t := g_gamma2_z_t.map ops.affG1 }

/-- The post-reduction stage of `generate_parameters`, with the Rust
panic conditions made explicit: the `non_zero_a` loop (`generator.rs`
lines 87-89) indexes `a[i]` for `i < sap_num_variables`; the C1 and C2
batches (lines 149-156 and 163-170) index `a[i]` and `c[i]` for
`i < sap_num_variables + 1`; `result.split_at(num_inputs)` (line 157)
panics unless `num_inputs ≤ result.length`, and `result` has length
`sap_num_variables + 1` by construction. -/
def generateFromSAP (num_inputs : Nat) (alpha beta gamma : F) (g : G1) (h : G2)
    (ops : AlgebraOps F G1 G2 A1 A2 ρ) (t : F) (out : SAPOut F) :
    Outcome (ProvingKey A1 A2) :=
  if out.sap_num_variables ≤ out.a.length then
    if out.sap_num_variables + 1 ≤ out.a.length ∧
        out.sap_num_variables + 1 ≤ out.c.length then
      if num_inputs ≤ out.sap_num_variables + 1 then
        .ok (assembleKeys num_inputs alpha beta gamma g h ops t out)
      else .panic
    else .panic
  else .panic

/-- `generate_parameters` (`generator.rs` lines 37-231): synthesize and
finalize the circuit, build the evaluation domain of size
`2 * num_constraints + 2 * num_inputs - 1` (line 73), sample the
evaluation point outside the domain (line 75), run the R1CS-to-SAP
reduction (lines 81-82), then assemble the keys. -/
def generate_parameters (circuit : Circuit F) (alpha beta gamma : F)
    (g : G1) (h : G2) (ops : AlgebraOps F G1 G2 A1 A2 ρ) (rng : ρ) :
    Outcome (ProvingKey A1 A2) :=
  match circuit with
  | .error e => .err e
  | .ok cs =>
    let domain_size := 2 * cs.num_constraints + 2 * cs.num_instance_variables - 1
    if ops.domainSupported domain_size then
      let tr := ops.sampleOutside domain_size rng
      match cs.reduce tr.1 with
      | .error e => .err e
      | .ok out =>
        generateFromSAP cs.num_instance_variables alpha beta gamma g h ops tr.1 out
    else .err .polynomialDegreeTooLarge

/-- `generate_random_parameters` (`generator.rs` lines 21-34): sample
`alpha` and `beta` from the scalar field, fix `gamma` to one, sample the
generators `g` and `h`, and run `generate_parameters` with the advanced
randomness source. -/
def generate_random_parameters (circuit : Circuit F)
    (ops : AlgebraOps F G1 G2 A1 A2 ρ) (rng : ρ) :
    Outcome (ProvingKey A1 A2) :=
  let ar := ops.randF rng
  let br := ops.randF ar.2
  let gamma : F := 1
  let gr := ops.randG1 br.2
  let hr := ops.randG2 gr.2
  generate_parameters circuit ar.1 br.1 gamma gr.1 hr.1 ops hr.2

/-- Modelled from the spec: the §4.2 output contract of the `r1cs_to_sap`
module (absent from `src/`): `a` and `c` have length
`sap_num_variables + 1`, and — forced by §4.4/§8, where the first
`num_inputs` of the `sap_num_variables + 1` C1 results form the verifying
key's query and the remainder a vector of length
`sap_num_variables − num_inputs + 1` — the instance-variable count is at
most `sap_num_variables + 1`. -/
def SAPContract (cs : Snapshot F) : Prop :=
  ∀ t out, cs.reduce t = Except.ok out →
    out.a.length = out.sap_num_variables + 1 ∧
    out.c.length = out.sap_num_variables + 1 ∧
    cs.num_instance_variables ≤ out.sap_num_variables + 1

/-- A concrete algebra-ops instance over `ZMod 5` (the groups taken as the
scalar ring acting on itself, affine conversion the identity, the
randomness source a `ZMod 5` counter), used to evaluate the generator on
concrete inputs. -/
def testOps : AlgebraOps (ZMod 5) (ZMod 5) (ZMod 5) (ZMod 5) (ZMod 5) (ZMod 5) where
  domainSupported := fun _ => true
  sampleOutside := fun _ r => (r, r + 1)
  randF := fun r => (r + 1, r + 1)
  randG1 := fun r => (r + 2, r + 2)
  randG2 := fun r => (r + 3, r + 3)
  affG1 := id
  affG2 := id

/-- A concrete finalized snapshot: 2 instance variables, 3 constraints,
and a reduction output with `sap_num_variables = 3`, `m_raw = 2` and
coefficient vectors of the contractual length 4, whose `zt` depends on
the sampled point. -/
def testCS : Snapshot (ZMod 5) where
  num_instance_variables := 2
  num_constraints := 3
  reduce := fun t =>
    .ok { a := [1, 2, 3, 4], c := [2, 3, 4, 0], zt := t + 1
          sap_num_variables := 3, m_raw := 2 }

/-- The reduction output of `testCS` at the point `t = 0`. -/
def testOut : SAPOut (ZMod 5) where
  a := [1, 2, 3, 4]
  c := [2, 3, 4, 0]
  zt := 1
  sap_num_variables := 3
  m_raw := 2

/-- An all-zero proving key over `ZMod 5`, used only as the fallback of
`Outcome.getOk`. -/
def zeroPK : ProvingKey (ZMod 5) (ZMod 5) where
  vk := { h_g2 := 0, g_alpha_g1 := 0, h_beta_g2 := 0, g_gamma_g1 := 0
          h_gamma_g2 := 0, query := [] }
  a_query := []
  b_query := []
  c_query_1 := []
  c_query_2 := []
  g_gamma_z := 0
  h_gamma_z := 0
  g_ab_gamma_z := 0
  g_gamma2_z2 := 0
  g_gamma2_z_t := []

/-- The proving key produced by the generator on the concrete test
instance: trapdoor `alpha = 2`, `beta = 3`, `gamma = 2`, generators
`g = 3`, `h = 4`, randomness state `0` (so the sampled point is
`t = 0`). -/
def testPK : ProvingKey (ZMod 5) (ZMod 5) :=
  (generate_parameters (Except.ok testCS) 2 3 2 (3 : ZMod 5) (4 : ZMod 5)
    testOps 0).getOk zeroPK

/-- A snapshot whose reduction itself surfaces the degree-too-large
error, as §4.2 allows ("Any failure (e.g., degree bound exceeded) is
surfaced as a synthesis/degree error and aborts generation"). -/
def degCS : Snapshot (ZMod 5) where
  num_instance_variables := 2
  num_constraints := 3
  reduce := fun _ => .error .polynomialDegreeTooLarge

/-- The test algebra-ops with every domain size unsupported, so that
`GeneralEvaluationDomain::new` fails. -/
def noDomainOps : AlgebraOps (ZMod 5) (ZMod 5) (ZMod 5) (ZMod 5) (ZMod 5) (ZMod 5) :=
  { testOps with domainSupported := fun _ => false }

end GM17

namespace GM17

variable {F : Type} [CommRing F] {G1 : Type} [AddCommGroup G1] [Module F G1]
variable {G2 : Type} [AddCommGroup G2] [Module F G2] {A1 A2 ρ : Type}

/-- Success characterization of the generator: a successful run pins down
the in-bounds conditions of the indexing and splitting steps and shows the
returned key is exactly the assembly stage's output on the reduction's
result and the sampled point. -/
theorem generate_parameters_ok
    {cs : Snapshot F} {alpha beta gamma : F} {g : G1} {h : G2}
    {ops : AlgebraOps F G1 G2 A1 A2 ρ} {rng : ρ} {t : F} {rng' : ρ}
    {out : SAPOut F} {pk : ProvingKey A1 A2}
    (hs : ops.sampleOutside
      (2 * cs.num_constraints + 2 * cs.num_instance_variables - 1) rng = (t, rng'))
    (hred : cs.reduce t = Except.ok out)
    (hok : generate_parameters (Except.ok cs) alpha beta gamma g h ops rng = Outcome.ok pk) :
    out.sap_num_variables + 1 ≤ out.a.length ∧
    out.sap_num_variables + 1 ≤ out.c.length ∧
    cs.num_instance_variables ≤ out.sap_num_variables + 1 ∧
    pk = assembleKeys cs.num_instance_variables alpha beta gamma g h ops t out := by
  simp only [generate_parameters, hs] at hok
  by_cases hd : ops.domainSupported
      (2 * cs.num_constraints + 2 * cs.num_instance_variables - 1)
  · simp only [hd, if_true] at hok
    rw [hred] at hok
    simp only [generateFromSAP] at hok
    split at hok
    · split at hok
      · split at hok
        · rename_i h1 h2 h3
          exact ⟨h2.1, h2.2, h3, (Outcome.ok.inj hok).symm⟩
        · exact absurd hok (by simp)
      · exact absurd hok (by simp)
    · exact absurd hok (by simp)
  · simp only [hd, if_false] at hok
    exact absurd hok (by simp)

/-- The concrete test snapshot satisfies the reduction's §4.2 output
contract. -/
theorem testCS_contract : SAPContract testCS := by
  intro t out h
  injection h with h2
  subst h2
  refine ⟨rfl, rfl, ?_⟩
  show (2 : Nat) ≤ 3 + 1
  decide

/-- Claim C1, amended: for every circuit for which `generate_parameters`
succeeds, under the reduction's length contract the proving key's
`a_query` and `c_query_2` each have length `sap_num_variables + 1` (the
claim said `sap_num_variables`), `c_query_1` has length
`sap_num_variables − num_inputs + 1` (stated addition-style to avoid
truncated subtraction), the embedded verifying key's `query` has length
`num_inputs`, and `g_gamma2_z_t` has length `m_raw + 1`. -/
theorem c1_vector_lengths
    (cs : Snapshot F) (alpha beta gamma : F) (g : G1) (h : G2)
    (ops : AlgebraOps F G1 G2 A1 A2 ρ) (rng : ρ) (t : F) (rng' : ρ)
    (out : SAPOut F) (pk : ProvingKey A1 A2)
    (hC : SAPContract cs)
    (hs : ops.sampleOutside
      (2 * cs.num_constraints + 2 * cs.num_instance_variables - 1) rng = (t, rng'))
    (hred : cs.reduce t = Except.ok out)
    (hok : generate_parameters (Except.ok cs) alpha beta gamma g h ops rng = Outcome.ok pk) :
    pk.a_query.length = out.sap_num_variables + 1 ∧
    pk.c_query_2.length = out.sap_num_variables + 1 ∧
    pk.c_query_1.length + cs.num_instance_variables = out.sap_num_variables + 1 ∧
    pk.vk.query.length = cs.num_instance_variables ∧
    pk.g_gamma2_z_t.length = out.m_raw + 1 := by
  obtain ⟨ha, hc, hni, hpk⟩ := generate_parameters_ok hs hred hok
  obtain ⟨haLen, hcLen, -⟩ := hC t out hred
  subst hpk
  refine ⟨?_, ?_, ?_, ?_, ?_⟩
  · simp [assembleKeys, fixedBaseMSM, haLen]
  · simp [assembleKeys, fixedBaseMSM]
  · simp [assembleKeys, fixedBaseMSM]
    omega
  · simp [assembleKeys, fixedBaseMSM]
    omega
  · simp [assembleKeys, fixedBaseMSM]

/-- Claim C1 witness: the amended length profile evaluated on the
concrete test instance (`sap_num_variables = 3`, 2 instance variables,
`m_raw = 2`). -/
theorem c1_vector_lengths_witness :
    testPK.a_query.length = testOut.sap_num_variables + 1 ∧
    testPK.c_query_2.length = testOut.sap_num_variables + 1 ∧
    testPK.c_query_1.length + testCS.num_instance_variables = testOut.sap_num_variables + 1 ∧
    testPK.vk.query.length = testCS.num_instance_variables ∧
    testPK.g_gamma2_z_t.length = testOut.m_raw + 1 :=
  c1_vector_lengths testCS 2 3 2 3 4 testOps 0 0 1 testOut testPK
    testCS_contract rfl rfl (by decide)

/-- Claim C1 counterexample: on a concrete successful run with
`sap_num_variables = 3`, both `a_query` and `c_query_2` have length 4,
not `sap_num_variables` as the claim stated. -/
theorem c1_counterexample :
    generate_parameters (Except.ok testCS) 2 3 2 (3 : ZMod 5) (4 : ZMod 5) testOps 0 =
      Outcome.ok testPK ∧
    testCS.reduce 0 = Except.ok testOut ∧
    testPK.a_query.length ≠ testOut.sap_num_variables ∧
    testPK.c_query_2.length ≠ testOut.sap_num_variables :=
  ⟨by decide, rfl, by decide, by decide⟩

/-- Claim C2: for every circuit for which `generate_parameters` succeeds
with trapdoor `(alpha, beta, gamma, g, h)` and sampled point `t`, and for
every `i` below `sap_num_variables`, the `i`-th A-query entry is the G1
base `g` multiplied by the scalar `a[i] * gamma`, and the `i`-th B-query
entry is the gamma-scaled G2 base `gamma • h` multiplied by the scalar
`a[i]` (both then converted to affine form). -/
theorem c2_ab_query_entries
    (cs : Snapshot F) (alpha beta gamma : F) (g : G1) (h : G2)
    (ops : AlgebraOps F G1 G2 A1 A2 ρ) (rng : ρ) (t : F) (rng' : ρ)
    (out : SAPOut F) (pk : ProvingKey A1 A2)
    (hs : ops.sampleOutside
      (2 * cs.num_constraints + 2 * cs.num_instance_variables - 1) rng = (t, rng'))
    (hred : cs.reduce t = Except.ok out)
    (hok : generate_parameters (Except.ok cs) alpha beta gamma g h ops rng = Outcome.ok pk)
    (i : Nat) (hi : i < out.sap_num_variables) :
    pk.a_query[i]? = some (ops.affG1 ((out.a.getD i 0 * gamma) • g)) ∧
    pk.b_query[i]? = some (ops.affG2 (out.a.getD i 0 • (gamma • h))) := by
  obtain ⟨ha, hc, hni, hpk⟩ := generate_parameters_ok hs hred hok
  subst hpk
  have hia : i < out.a.length := lt_of_lt_of_le (Nat.lt_succ_of_lt hi) ha
  constructor
  · simp [assembleKeys, fixedBaseMSM, List.getElem?_map,
      List.getElem?_eq_getElem hia, List.getD_eq_getElem _ _ hia]
  · simp [assembleKeys, fixedBaseMSM, List.getElem?_map,
      List.getElem?_eq_getElem hia, List.getD_eq_getElem _ _ hia]

/-- Claim C2 witness: the A- and B-query entry formulas evaluated at
index 0 of the concrete test instance. -/
theorem c2_ab_query_entries_witness :
    testPK.a_query[0]? = some (testOps.affG1 ((testOut.a.getD 0 0 * 2) • (3 : ZMod 5))) ∧
    testPK.b_query[0]? = some (testOps.affG2 (testOut.a.getD 0 0 • ((2 : ZMod 5) • (4 : ZMod 5)))) :=
  c2_ab_query_entries testCS 2 3 2 3 4 testOps 0 0 1 testOut testPK
    rfl rfl (by decide) 0 (by decide)

/-- Claim C3: for every circuit for which `generate_parameters` succeeds,
the combined C-part-1 batch over indices `0..=sap_num_variables` consists
of the G1 base multiplied by `c[i] * gamma + a[i] * (alpha + beta)`, its
first `num_inputs` entries are placed (affine-normalized) in the
verifying key's `query` and the remainder in the proving key's
`c_query_1`; and the `c_query_2` batch over the same range consists of
the G1 base multiplied by `a[i] * 2 * gamma^2 * Z(t)`. -/
theorem c3_c_query_entries
    (cs : Snapshot F) (alpha beta gamma : F) (g : G1) (h : G2)
    (ops : AlgebraOps F G1 G2 A1 A2 ρ) (rng : ρ) (t : F) (rng' : ρ)
    (out : SAPOut F) (pk : ProvingKey A1 A2)
    (hs : ops.sampleOutside
      (2 * cs.num_constraints + 2 * cs.num_instance_variables - 1) rng = (t, rng'))
    (hred : cs.reduce t = Except.ok out)
    (hok : generate_parameters (Except.ok cs) alpha beta gamma g h ops rng = Outcome.ok pk) :
    pk.vk.query = (((List.range (out.sap_num_variables + 1)).map
        (fun i => (out.c.getD i 0 * gamma + out.a.getD i 0 * (alpha + beta)) • g)).take
          cs.num_instance_variables).map ops.affG1 ∧
    pk.c_query_1 = (((List.range (out.sap_num_variables + 1)).map
        (fun i => (out.c.getD i 0 * gamma + out.a.getD i 0 * (alpha + beta)) • g)).drop
          cs.num_instance_variables).map ops.affG1 ∧
    pk.c_query_2 = ((List.range (out.sap_num_variables + 1)).map
        (fun i => (out.a.getD i 0 * (2 * gamma ^ 2 * out.zt)) • g)).map ops.affG1 := by
  obtain ⟨ha, hc, hni, hpk⟩ := generate_parameters_ok hs hred hok
  subst hpk
  refine ⟨?_, ?_, ?_⟩
  · simp only [assembleKeys, fixedBaseMSM, List.map_map]
    rfl
  · simp only [assembleKeys, fixedBaseMSM, List.map_map]
    rfl
  · simp only [assembleKeys, fixedBaseMSM, List.map_map]
    congr 1
    funext i
    simp only [Function.comp]
    congr 2
    ring

/-- Claim C3 witness: the C-query split and entry formulas evaluated on
the concrete test instance. -/
theorem c3_c_query_entries_witness :
    testPK.vk.query = (((List.range (testOut.sap_num_variables + 1)).map
        (fun i => (testOut.c.getD i 0 * 2 + testOut.a.getD i 0 * (2 + 3)) • (3 : ZMod 5))).take
          testCS.num_instance_variables).map testOps.affG1 ∧
    testPK.c_query_1 = (((List.range (testOut.sap_num_variables + 1)).map
        (fun i => (testOut.c.getD i 0 * 2 + testOut.a.getD i 0 * (2 + 3)) • (3 : ZMod 5))).drop
          testCS.num_instance_variables).map testOps.affG1 ∧
    testPK.c_query_2 = ((List.range (testOut.sap_num_variables + 1)).map
        (fun i => (testOut.a.getD i 0 * (2 * 2 ^ 2 * testOut.zt)) • (3 : ZMod 5))).map testOps.affG1 :=
  c3_c_query_entries testCS 2 3 2 3 4 testOps 0 0 1 testOut testPK
    rfl rfl (by decide)

/-- Claim C4: for every circuit for which `generate_parameters` succeeds,
the `i`-th entry of `g_gamma2_z_t`, for `i` in `0..=m_raw`, is the G1
base multiplied by `gamma^2 * Z(t) * t^i` (affine-normalized), where `t`
is the sampled point and `Z(t)` the reduction's vanishing-polynomial
evaluation. -/
theorem c4_g_gamma2_z_t_entries
    (cs : Snapshot F) (alpha beta gamma : F) (g : G1) (h : G2)
    (ops : AlgebraOps F G1 G2 A1 A2 ρ) (rng : ρ) (t : F) (rng' : ρ)
    (out : SAPOut F) (pk : ProvingKey A1 A2)
    (hs : ops.sampleOutside
      (2 * cs.num_constraints + 2 * cs.num_instance_variables - 1) rng = (t, rng'))
    (hred : cs.reduce t = Except.ok out)
    (hok : generate_parameters (Except.ok cs) alpha beta gamma g h ops rng = Outcome.ok pk) :
    pk.g_gamma2_z_t = (List.range (out.m_raw + 1)).map
        (fun i => ops.affG1 ((gamma ^ 2 * out.zt * t ^ i) • g)) := by
  obtain ⟨ha, hc, hni, hpk⟩ := generate_parameters_ok hs hred hok
  subst hpk
  simp only [assembleKeys, fixedBaseMSM, List.map_map]
  congr 1
  funext i
  simp only [Function.comp]
  congr 2
  ring

/-- Claim C4 witness: the auxiliary-vector formula evaluated on the
concrete test instance (`t = 0`, `m_raw = 2`). -/
theorem c4_g_gamma2_z_t_entries_witness :
    testPK.g_gamma2_z_t = (List.range (testOut.m_raw + 1)).map
        (fun i => testOps.affG1 ((2 ^ 2 * testOut.zt * (0 : ZMod 5) ^ i) • (3 : ZMod 5))) :=
  c4_g_gamma2_z_t_entries testCS 2 3 2 3 4 testOps 0 0 1 testOut testPK
    rfl rfl (by decide)

/-- Claim C5: for every circuit for which `generate_parameters` succeeds
with trapdoor `(alpha, beta, gamma, g, h)` and sampled point `t`, the
single key elements satisfy `vk.g_gamma_g1 = gamma • g`,
`pk.g_gamma_z = (gamma * Z(t)) • g`, `vk.h_gamma_g2 = gamma • h`,
`pk.h_gamma_z = Z(t) • (gamma • h)`,
`pk.g_ab_gamma_z = ((alpha + beta) * gamma * Z(t)) • g` and
`pk.g_gamma2_z2 = ((gamma * Z(t))^2) • g`, each converted to affine
form. -/
theorem c5_single_elements
    (cs : Snapshot F) (alpha beta gamma : F) (g : G1) (h : G2)
    (ops : AlgebraOps F G1 G2 A1 A2 ρ) (rng : ρ) (t : F) (rng' : ρ)
    (out : SAPOut F) (pk : ProvingKey A1 A2)
    (hs : ops.sampleOutside
      (2 * cs.num_constraints + 2 * cs.num_instance_variables - 1) rng = (t, rng'))
    (hred : cs.reduce t = Except.ok out)
    (hok : generate_parameters (Except.ok cs) alpha beta gamma g h ops rng = Outcome.ok pk) :
    pk.vk.g_gamma_g1 = ops.affG1 (gamma • g) ∧
    pk.g_gamma_z = ops.affG1 ((gamma * out.zt) • g) ∧
    pk.vk.h_gamma_g2 = ops.affG2 (gamma • h) ∧
    pk.h_gamma_z = ops.affG2 (out.zt • (gamma • h)) ∧
    pk.g_ab_gamma_z = ops.affG1 (((alpha + beta) * gamma * out.zt) • g) ∧
    pk.g_gamma2_z2 = ops.affG1 (((gamma * out.zt) ^ 2) • g) := by
  obtain ⟨ha, hc, hni, hpk⟩ := generate_parameters_ok hs hred hok
  subst hpk
  refine ⟨rfl, ?_, rfl, rfl, rfl, ?_⟩
  · simp only [assembleKeys]
    congr 2
    ring
  · simp only [assembleKeys]
    congr 2
    ring

/-- Claim C5 witness: the six single-element formulas evaluated on the
concrete test instance. -/
theorem c5_single_elements_witness :
    testPK.vk.g_gamma_g1 = testOps.affG1 ((2 : ZMod 5) • (3 : ZMod 5)) ∧
    testPK.g_gamma_z = testOps.affG1 ((2 * testOut.zt) • (3 : ZMod 5)) ∧
    testPK.vk.h_gamma_g2 = testOps.affG2 ((2 : ZMod 5) • (4 : ZMod 5)) ∧
    testPK.h_gamma_z = testOps.affG2 (testOut.zt • ((2 : ZMod 5) • (4 : ZMod 5))) ∧
    testPK.g_ab_gamma_z = testOps.affG1 (((2 + 3) * 2 * testOut.zt) • (3 : ZMod 5)) ∧
    testPK.g_gamma2_z2 = testOps.affG1 (((2 * testOut.zt) ^ 2) • (3 : ZMod 5)) :=
  c5_single_elements testCS 2 3 2 3 4 testOps 0 0 1 testOut testPK
    rfl rfl (by decide)

/-- Claim C6, amended: for every circuit whose synthesis succeeds, the
generator consults the domain library at exactly the size
`2 * num_constraints + 2 * num_inputs - 1`; if no evaluation domain of at
least that size is supported it returns the degree-too-large error with
no key material — for every choice of groups and generators, i.e. before
any scalar-multiplication work; and conversely a degree-too-large result
arises only from that domain check or from a degree error surfaced by the
R1CS-to-SAP reduction itself (which §4.2 permits), not from any later
stage. -/
theorem c6_domain_size_and_degree_error
    (cs : Snapshot F) (alpha beta gamma : F) (g : G1) (h : G2)
    (ops : AlgebraOps F G1 G2 A1 A2 ρ) (rng : ρ) :
    (ops.domainSupported (2 * cs.num_constraints + 2 * cs.num_instance_variables - 1) = false →
      generate_parameters (Except.ok cs) alpha beta gamma g h ops rng =
        Outcome.err SynthError.polynomialDegreeTooLarge) ∧
    (generate_parameters (Except.ok cs) alpha beta gamma g h ops rng =
        Outcome.err SynthError.polynomialDegreeTooLarge →
      ops.domainSupported (2 * cs.num_constraints + 2 * cs.num_instance_variables - 1) = false ∨
      cs.reduce (ops.sampleOutside
          (2 * cs.num_constraints + 2 * cs.num_instance_variables - 1) rng).1 =
        Except.error SynthError.polynomialDegreeTooLarge) := by
  constructor
  · intro hd
    simp [generate_parameters, hd]
  · intro hok
    cases hd : ops.domainSupported
        (2 * cs.num_constraints + 2 * cs.num_instance_variables - 1) with
    | false => exact Or.inl rfl
    | true =>
      refine Or.inr ?_
      simp only [generate_parameters, hd, if_true] at hok
      cases hred : cs.reduce (ops.sampleOutside
          (2 * cs.num_constraints + 2 * cs.num_instance_variables - 1) rng).1 with
      | error e =>
        simp only [hred] at hok
        injection hok with he
        rw [he]
      | ok out =>
        simp only [hred, generateFromSAP] at hok
        split at hok
        · split at hok
          · split at hok
            · cases hok
            · cases hok
          · cases hok
        · cases hok

/-- Claim C6 witness: with every domain size unsupported, the generator
returns exactly the degree-too-large error on the concrete test
circuit. -/
theorem c6_domain_size_and_degree_error_witness :
    generate_parameters (Except.ok testCS) 2 3 2 (3 : ZMod 5) (4 : ZMod 5) noDomainOps 0 =
      Outcome.err SynthError.polynomialDegreeTooLarge :=
  (c6_domain_size_and_degree_error testCS 2 3 2 3 4 noDomainOps 0).1 rfl

/-- Claim C6 counterexample: a circuit whose synthesis succeeds and whose
R1CS-to-SAP reduction surfaces the degree-too-large error makes the
generator return that error even though a domain of the computed size is
supported — so the claim's "if and only if" fails in the only-if
direction. -/
theorem c6_counterexample :
    generate_parameters (Except.ok degCS) 2 3 2 (3 : ZMod 5) (4 : ZMod 5) testOps 0 =
      Outcome.err SynthError.polynomialDegreeTooLarge ∧
    testOps.domainSupported
      (2 * degCS.num_constraints + 2 * degCS.num_instance_variables - 1) = true :=
  ⟨rfl, rfl⟩

/-- Claim C7: `generate_random_parameters` samples `alpha` and `beta`
from the scalar field and the generators `g` (in G1) and `h` (in G2) from
the randomness source, fixes `gamma` to the multiplicative identity, and
returns exactly `generate_parameters` applied to the circuit with those
five trapdoor values and the advanced randomness source. -/
theorem c7_random_parameters (circuit : Circuit F)
    (ops : AlgebraOps F G1 G2 A1 A2 ρ) (rng : ρ) :
    generate_random_parameters circuit ops rng =
      generate_parameters circuit (ops.randF rng).1 (ops.randF (ops.randF rng).2).1 1
        (ops.randG1 (ops.randF (ops.randF rng).2).2).1
        (ops.randG2 (ops.randG1 (ops.randF (ops.randF rng).2).2).2).1 ops
        (ops.randG2 (ops.randG1 (ops.randF (ops.randF rng).2).2).2).2 := rfl

/-- Claim C8, amended: the explicit-trapdoor entry point is a pure
function of its arguments — two invocations with identical
`(circuit, alpha, beta, gamma, g, h)` and the same randomness-source
state produce identical proving-key (hence verifying-key) records.  The
randomness state must be included: the sampled evaluation point comes
from it. -/
theorem c8_determinism (circuit : Circuit F) (alpha beta gamma : F) (g : G1) (h : G2)
    (ops : AlgebraOps F G1 G2 A1 A2 ρ) (rng : ρ) :
    generate_parameters circuit alpha beta gamma g h ops rng =
      generate_parameters circuit alpha beta gamma g h ops rng := rfl

/-- Claim C8 counterexample: two invocations with identical
`(circuit, alpha, beta, gamma, g, h)` but different randomness states
sample different evaluation points and produce different keys, so the
claim as stated (which omits the randomness source from the tuple) is
false. -/
theorem c8_counterexample :
    generate_parameters (Except.ok testCS) 2 3 2 (3 : ZMod 5) (4 : ZMod 5) testOps 0 ≠
      generate_parameters (Except.ok testCS) 2 3 2 (3 : ZMod 5) (4 : ZMod 5) testOps 1 := by
  decide

/-- Claim C9: for every circuit whose synthesis and R1CS-to-SAP reduction
(obeying its §4.2/§4.4 contract) succeed, `num_inputs` is at most
`sap_num_variables + 1`, so the split of the C-part-1 result vector at
index `num_inputs` is in bounds and `generate_parameters` never reaches a
panic. -/
theorem c9_split_in_bounds
    (cs : Snapshot F) (alpha beta gamma : F) (g : G1) (h : G2)
    (ops : AlgebraOps F G1 G2 A1 A2 ρ) (rng : ρ) (t : F) (out : SAPOut F)
    (hC : SAPContract cs) (hred : cs.reduce t = Except.ok out) :
    cs.num_instance_variables ≤ out.sap_num_variables + 1 ∧
    generate_parameters (Except.ok cs) alpha beta gamma g h ops rng ≠ Outcome.panic := by
  refine ⟨(hC t out hred).2.2, ?_⟩
  intro hpanic
  cases hd : ops.domainSupported
      (2 * cs.num_constraints + 2 * cs.num_instance_variables - 1) with
  | false => simp only [generate_parameters, hd, if_false] at hpanic; cases hpanic
  | true =>
    simp only [generate_parameters, hd, if_true] at hpanic
    cases hred' : cs.reduce (ops.sampleOutside
        (2 * cs.num_constraints + 2 * cs.num_instance_variables - 1) rng).1 with
    | error e => simp only [hred'] at hpanic; cases hpanic
    | ok out' =>
      obtain ⟨ha', hc', hni'⟩ := hC _ _ hred'
      simp only [hred', generateFromSAP] at hpanic
      rw [if_pos (show out'.sap_num_variables ≤ out'.a.length by omega)] at hpanic
      rw [if_pos (show out'.sap_num_variables + 1 ≤ out'.a.length ∧
          out'.sap_num_variables + 1 ≤ out'.c.length from ⟨by omega, by omega⟩)] at hpanic
      rw [if_pos hni'] at hpanic
      cases hpanic

/-- Claim C9 witness: the in-bounds split property evaluated on the
concrete test instance. -/
theorem c9_split_in_bounds_witness :
    testCS.num_instance_variables ≤ testOut.sap_num_variables + 1 ∧
    generate_parameters (Except.ok testCS) 2 3 2 (3 : ZMod 5) (4 : ZMod 5) testOps 0 ≠
      Outcome.panic :=
  c9_split_in_bounds testCS 2 3 2 3 4 testOps 0 0 testOut testCS_contract rfl

end GM17
